import Mathlib

/-!
Shallow embedding of the ucam signaling/UI core.

The repository is a React prototype for a camera/viewer system: clients
authenticate, open a WebSocket to a relay, exchange presence events
(`clientonline` / `clientoffline`), and negotiate WebRTC sessions by
relaying `calloffer` / `callanswer` / `newicecandidate` payloads.

Two iterations of the state layer coexist in the source and are both
embedded here:

* namespace `Ctx` — the converged context iteration:
  `src/ui/src/context/reducers.js`, `src/ui/src/context/index.jsx`,
  the `useAppContext` hook (`connectToClient` / `disconnectFromClient`)
  and the `useWebSocket` hook;
* namespace `Store` — the earlier store iteration: `src/ui/src/store.jsx`
  (reducer plus the `API` class with `handleConnectionMessage`,
  `createPeerConnection`, `sendAnswer`, `setAndSendLocalDescription`,
  `wsSend`).

JavaScript objects used as maps are embedded as functions
`Address → Option _` (a missing key is `none`); JavaScript exceptions
are embedded as `Except JsError`; calls into external capabilities
(`WebSocket.send`, `RTCPeerConnection` methods) are recorded in the
result rather than performed, with the media stack's answer description
supplied as an explicit oracle argument.
-/

/-- A JID-like address, e.g. `"alice@home"` or `"alice@home/dev1"`. -/
abbrev Address := String

/-- A capability string, e.g. `"produce:video"`. -/
abbrev Capability := String

abbrev Capabilities := List Capability

/-- An opaque session description (the `sdp` payload member). -/
structure Sdp where
  body : String
deriving DecidableEq, Repr

/-- An opaque ICE candidate (the `ice` payload member). -/
structure IceCand where
  body : String
deriving DecidableEq, Repr

/-- The payload shapes that travel inside a relay envelope, from the wire
format used throughout the source (`message` member of the JSON frame). -/
inductive Payload where
  | capabilities (caps : Capabilities)
  | calloffer (sdp : Sdp)
  | callanswer (sdp : Sdp)
  | newicecandidate (ice : IceCand)
  | clientonline (caps : Capabilities)
  | clientoffline
deriving DecidableEq, Repr

/-- The JSON frame written to the websocket:
`JSON.stringify({ from_jid, to_jid, message })`.  `from_jid` is `none`
when the sender's JID is `null` in the source state. -/
structure WireFrame where
  from_jid : Option Address
  to_jid : Address
  message : Payload
deriving DecidableEq, Repr

/-- A thrown JavaScript exception. -/
inductive JsError where
  | typeError (msg : String)
  | jsError (msg : String)
deriving DecidableEq, Repr

/-- The state of a browser `WebSocket` instance.  The source never reads
`readyState`; it is carried so that "the channel is open" is expressible. -/
structure WebSocketInstance where
  readyState : Nat
deriving DecidableEq, Repr

/-- `WebSocket.CONNECTING` -/
def wsCONNECTING : Nat := 0
/-- `WebSocket.OPEN` -/
def wsOPEN : Nat := 1

/-- An `RTCPeerConnection` as observed through the calls the source makes
on it.  `localDescription` / `remoteDescription` record
`setLocalDescription` / `setRemoteDescription`; `addedIceCandidates`
records the candidates handed to `addIceCandidate` (acceptance is internal
to the media stack and any rejection is caught and logged by the source);
`answerSdp` is the description the opaque media stack would resolve
`createAnswer()` with. -/
structure RTCPeerConnection where
  localDescription : Option Sdp
  remoteDescription : Option Sdp
  addedIceCandidates : List IceCand
  answerSdp : Sdp
deriving DecidableEq, Repr

/-- A presence event as delivered by the relay: the roster-relevant
projection of `clientonline` / `clientoffline` envelopes. -/
inductive PresenceEvent where
  | online (jid : Address) (caps : Capabilities)
  | offline (jid : Address)
deriving DecidableEq, Repr

/-- The address a presence event concerns (its `from_jid`). -/
def PresenceEvent.jid : PresenceEvent → Address
  | .online j _ => j
  | .offline j => j

/-- A roster value: a JS object mapping JIDs to capability arrays. -/
abbrev Roster := Address → Option Capabilities

/-- The empty roster object. -/
def emptyRoster : Roster := fun _ => none

namespace Ctx

/-- `AuthState.Anonymous` from `services/auth` (numeric bit flags). -/
def AuthAnonymous : Nat := 2
/-- `AuthState.Loading` -/
def AuthLoading : Nat := 4
/-- `AuthState.Authenticated` -/
def AuthAuthenticated : Nat := 8

/-- `PeerState.Connecting` from `context/index.jsx`. -/
def PeerConnecting : Nat := 2
/-- `PeerState.Connected` from `context/index.jsx`. -/
def PeerConnected : Nat := 4

/-- The context-iteration application state (`context/index.jsx`
`initialState`).  `ws` and `wsPeersByID` are refs whose `current` starts
`null`; `wsStateByID` maps JIDs to `PeerState` numbers, a missing or
`undefined` entry meaning disconnected.  `peers` is the roster-like
member the initial state declares, which nothing ever reads or writes.
The `roster` member the reducer branches use is NOT part of the initial
state: it is absent (`none`) until a `ROSTER_LIST` dispatch installs
it, and `ROSTER_ONLINE`/`ROSTER_OFFLINE` dereference it. -/
structure State where
  authState : Nat
  authError : Option String
  authToken : Option String
  authJID : Option Address
  peers : Roster
  roster : Option Roster
  ws : Option WebSocketInstance
  wsPeersByID : Option (Address → Option RTCPeerConnection)
  wsStateByID : Address → Option Nat

/-- Outcome of one `wsSend` call in `context/reducers.js`: either the
`console.error` report when no websocket instance exists, or the frame
handed to `ws.current.send`. -/
inductive SendOutcome where
  | errorReported
  | transmitted (frame : WireFrame)
deriving DecidableEq, Repr

/-- `wsSend(state, message, toJID)` from `context/reducers.js` lines
90–103: bail out with a `console.error` when `state.ws.current` is
`null`, otherwise stringify and send the frame (regardless of the
socket's `readyState`, which the source never consults). -/
def wsSend (state : State) (message : Payload) (toJID : Option Address) : SendOutcome :=
  match state.ws with
  | none => .errorReported
  | some _ =>
      .transmitted { from_jid := state.authJID
                     to_jid := toJID.getD ""
                     message := message }

/-- `ROSTER_ONLINE`: `newState.roster[data.from_jid] = capabilities`. -/
def rosterOnline (roster : Roster) (j : Address) (caps : Capabilities) : Roster :=
  fun x => if x = j then some caps else roster x

/-- `ROSTER_OFFLINE`: `if (newState.roster[data.from_jid] !== undefined)
delete newState.roster[data.from_jid]`. -/
def rosterOffline (roster : Roster) (j : Address) : Roster :=
  if (roster j).isSome then fun x => if x = j then none else roster x
  else roster

/-- `WRTC_PEER_STATE`: `newState.wsStateByID[data.jid] = data.state`
(storing `undefined` — `none` — is how disconnection is recorded). -/
def applyPeerState (state : State) (jid : Address) (st : Option Nat) : State :=
  { state with wsStateByID := fun x => if x = jid then st else state.wsStateByID x }

/-- The actions dispatched to the context reducer, one constructor per
action-type constant of `context/reducers.js`, carrying the fields the
corresponding branch reads; `other` is an action whose `type` string is
none of the constants. -/
inductive Action where
  | AUTH_LOADING
  | AUTH_SUCCESS (authState : Nat) (authJID : Address) (authToken : String)
  | AUTH_FAILURE (authState : Nat) (authError : Option String)
  | ROSTER_LIST (roster : Roster)
  | ROSTER_ONLINE (from_jid : Address) (caps : Capabilities)
  | ROSTER_OFFLINE (from_jid : Address)
  | WSCK_CONNECT (ws : WebSocketInstance)
  | WSCK_SEND (message : Payload) (fromJID : Option Address)
  | WSCK_ON_OPEN (capabilities : Capabilities)
  | WSCK_ON_CLOSE
  | WSCK_ON_ERROR
  | WSCK_ON_MESSAGE
  | WRTC_PEER_STATE (jid : Address) (st : Option Nat)
  | WRTC_PEER_CONNECTION (jid : Address) (pc : RTCPeerConnection)
  | other (t : String)

/-- The `type` string of an action, as the source spells it. -/
def Action.typeName : Action → String
  | .AUTH_LOADING => "AUTH_LOADING"
  | .AUTH_SUCCESS _ _ _ => "AUTH_SUCCESS"
  | .AUTH_FAILURE _ _ => "AUTH_FAILURE"
  | .ROSTER_LIST _ => "ROSTER_LIST"
  | .ROSTER_ONLINE _ _ => "ROSTER_ONLINE"
  | .ROSTER_OFFLINE _ => "ROSTER_OFFLINE"
  | .WSCK_CONNECT _ => "WSCK_CONNECT"
  | .WSCK_SEND _ _ => "WSCK_SEND"
  | .WSCK_ON_OPEN _ => "WSCK_ON_OPEN"
  | .WSCK_ON_CLOSE => "WSCK_ON_CLOSE"
  | .WSCK_ON_ERROR => "WSCK_ON_ERROR"
  | .WSCK_ON_MESSAGE => "WSCK_ON_MESSAGE"
  | .WRTC_PEER_STATE _ _ => "WRTC_PEER_STATE"
  | .WRTC_PEER_CONNECTION _ _ => "WRTC_PEER_CONNECTION"
  | .other t => t

/-- The action-type constants defined in `context/reducers.js`. -/
def knownActionTypes : List String :=
  ["AUTH_LOADING", "AUTH_SUCCESS", "AUTH_FAILURE",
   "ROSTER_LIST", "ROSTER_ONLINE", "ROSTER_OFFLINE",
   "WSCK_CONNECT", "WSCK_SEND", "WSCK_ON_OPEN", "WSCK_ON_CLOSE",
   "WSCK_ON_ERROR", "WSCK_ON_MESSAGE",
   "WRTC_PEER_STATE", "WRTC_PEER_CONNECTION"]

/-- Whether an action is the `other` (unknown-type) constructor. -/
def Action.isOther : Action → Bool
  | .other _ => true
  | _ => false

/-- Whether an action's branch dereferences the state's `roster` member
(`ROSTER_ONLINE` writes `newState.roster[...]`, `ROSTER_OFFLINE` reads
it) — the branches that throw when no roster object exists. -/
def Action.touchesRoster : Action → Bool
  | .ROSTER_ONLINE _ _ => true
  | .ROSTER_OFFLINE _ => true
  | _ => false

/-- `initialState` from `context/index.jsx`: `authState` is whatever
`getInitialAuthState()` returns (cookie-dependent, so passed in); the
roster-like member is named `peers` and there is no `roster` member;
the `ws` and `wsPeersByID` refs start with `current` null. -/
def initialState (authState0 : Nat) : State :=
  { authState := authState0
    authError := none
    authToken := none
    authJID := none
    peers := emptyRoster
    roster := none
    ws := none
    wsPeersByID := none
    wsStateByID := fun _ => none }

/-- The reducer returned by `createReducer()` in `context/reducers.js`.
The result pairs the next state with the `wsSend` outcomes the branch
performed (`WSCK_SEND` and `WSCK_ON_OPEN` are the only effectful
branches); the `default` branch throws, and the `ROSTER_ONLINE` /
`ROSTER_OFFLINE` branches throw a `TypeError` when the state has no
roster object to dereference (true until `ROSTER_LIST` installs one). -/
def createReducer (state : State) (action : Action) :
    Except JsError (State × List SendOutcome) :=
  match action with
  | .AUTH_LOADING => .ok ({ state with authState := AuthLoading }, [])
  | .AUTH_SUCCESS a j t =>
      .ok ({ state with authState := a, authJID := some j, authToken := some t }, [])
  | .AUTH_FAILURE a e => .ok ({ state with authState := a, authError := e }, [])
  | .ROSTER_LIST r => .ok ({ state with roster := some r }, [])
  | .ROSTER_ONLINE j caps =>
      match state.roster with
      | none => .error (.typeError "cannot set properties of undefined")
      | some r => .ok ({ state with roster := some (rosterOnline r j caps) }, [])
  | .ROSTER_OFFLINE j =>
      match state.roster with
      | none => .error (.typeError "cannot read properties of undefined")
      | some r => .ok ({ state with roster := some (rosterOffline r j) }, [])
  | .WSCK_CONNECT w => .ok ({ state with ws := some w }, [])
  | .WSCK_SEND m f => .ok (state, [wsSend state m f])
  | .WSCK_ON_OPEN caps => .ok (state, [wsSend state (.capabilities caps) none])
  | .WSCK_ON_CLOSE => .ok (state, [])
  | .WSCK_ON_ERROR => .ok (state, [])
  | .WSCK_ON_MESSAGE => .ok (state, [])
  | .WRTC_PEER_STATE j st => .ok (applyPeerState state j st, [])
  | .WRTC_PEER_CONNECTION j pc =>
      let cur := state.wsPeersByID.getD (fun _ => none)
      .ok ({ state with wsPeersByID := some (fun x => if x = j then some pc else cur x) }, [])
  | .other t => .error (.jsError ("action type not known: " ++ t))

/-- `connectToClient` from the `useAppContext` hook: dispatches
`WRTC_PEER_STATE` with `PeerState.Connecting`, which the reducer applies
via `applyPeerState` (see `createReducer`). -/
def connectToClient (state : State) (jid : Address) : State :=
  applyPeerState state jid (some PeerConnecting)

/-- `disconnectFromClient` from the `useAppContext` hook: dispatches
`WRTC_PEER_STATE` with `state: undefined`. -/
def disconnectFromClient (state : State) (jid : Address) : State :=
  applyPeerState state jid none

/-- One presence event folded through the reducer's roster branches. -/
def presenceStep (roster : Roster) (e : PresenceEvent) : Roster :=
  match e with
  | .online j caps => rosterOnline roster j caps
  | .offline j => rosterOffline roster j

/-- A sequence of presence events folded through the roster branches of
the context reducer, oldest first. -/
def applyPresenceEvents (roster : Roster) (events : List PresenceEvent) : Roster :=
  events.foldl presenceStep roster

end Ctx

namespace Store

/-- `AuthState.Anonymous` from `store.jsx` (numeric bit flags). -/
def AuthAnonymous : Nat := 2
/-- `AuthState.Authenticated` from `store.jsx`. -/
def AuthAuthenticated : Nat := 16

/-- The `auth` sub-object of the store state. -/
structure Auth where
  state : Nat
  user : Option Address
deriving DecidableEq, Repr

/-- A DOM node stored by `m.videoEl` (opaque). -/
structure DomNode where
  id : Nat
deriving DecidableEq, Repr

/-- The `ui` sub-object read by the `ui.enableAudioRecording` branch.
`initialState` in `store.jsx` defines no `ui` member and no branch ever
creates one, so the store state carries it as an `Option`. -/
structure UiFlags where
  recordAudio : Bool
deriving DecidableEq, Repr

/-- The store-iteration application state, from `initialState` in
`store.jsx`. -/
structure State where
  ws : Option WebSocketInstance
  clientList : Roster
  connectedTo : Address → Option String
  peerConnections : Address → Option RTCPeerConnection
  videoElements : Address → Option DomNode
  auth : Auth
  ui : Option UiFlags

/-- `initialState` from `store.jsx` lines 11–21 (all maps empty, no
websocket, anonymous auth, no `ui` member). -/
def initialState : State :=
  { ws := none
    clientList := emptyRoster
    connectedTo := fun _ => none
    peerConnections := fun _ => none
    videoElements := fun _ => none
    auth := { state := AuthAnonymous, user := none }
    ui := none }

/-- `srv.clientOnline`: `newState.clientList[from_jid] = capabilities`. -/
def clientOnline (m : Roster) (j : Address) (caps : Capabilities) : Roster :=
  fun x => if x = j then some caps else m x

/-- `srv.clientOffline`: `delete newState.clientList[from_jid]`
(unconditional; deleting a missing key is a no-op). -/
def clientOffline (m : Roster) (j : Address) : Roster :=
  fun x => if x = j then none else m x

/-- `m.disconnect`: `delete newState.connectedTo[action.data]` — the
transition `API.disconnectFrom(client)` dispatches. -/
def disconnectFrom (state : State) (client : Address) : State :=
  { state with connectedTo := fun x => if x = client then none else state.connectedTo x }

/-- The actions dispatched to the `store.jsx` reducer, one constructor
per `case` label, carrying the fields the branch reads; `other` is an
action whose `type` string matches no `case`. -/
inductive Action where
  | authStateAct (data : Nat)
  | authSuccess (jid : Address)
  | srvConnect (ws : WebSocketInstance)
  | srvUserList (data : Roster)
  | srvClientOnline (from_jid : Address) (caps : Capabilities)
  | srvClientOffline (from_jid : Address)
  | mVideoEl (remoteJID : Address) (node : DomNode)
  | mConnect (remoteJID : Address)
  | mDisconnect (data : Address)
  | mPeerConn (jid : Address) (peerConn : RTCPeerConnection)
  | uiEnableAudioRecording
  | other (t : String)

/-- The `type` string of a store action, as `store.jsx` spells it. -/
def Action.typeName : Action → String
  | .authStateAct _ => "auth.state"
  | .authSuccess _ => "auth.success"
  | .srvConnect _ => "srv.connect"
  | .srvUserList _ => "srv.userList"
  | .srvClientOnline _ _ => "srv.clientOnline"
  | .srvClientOffline _ => "srv.clientOffline"
  | .mVideoEl _ _ => "m.videoEl"
  | .mConnect _ => "m.connect"
  | .mDisconnect _ => "m.disconnect"
  | .mPeerConn _ _ => "m.peerConn"
  | .uiEnableAudioRecording => "ui.enableAudioRecording"
  | .other t => t

/-- The `case` labels of the `store.jsx` reducer. -/
def knownActionTypes : List String :=
  ["auth.state", "auth.success", "srv.connect", "srv.userList",
   "srv.clientOnline", "srv.clientOffline", "m.videoEl", "m.connect",
   "m.disconnect", "m.peerConn", "ui.enableAudioRecording"]

/-- Whether a store action is the `other` (unknown-type) constructor. -/
def Action.isOther : Action → Bool
  | .other _ => true
  | _ => false

/-- The reducer returned by `createReducer()` in `store.jsx` lines
25–117.  `ui.enableAudioRecording` writes `newState.ui.recordAudio`, a
`TypeError` whenever the state has no `ui` object; the `default` branch
throws `No action <type>`. -/
def createReducer (state : State) (action : Action) : Except JsError State :=
  match action with
  | .authStateAct d => .ok { state with auth := { state.auth with state := d } }
  | .authSuccess j =>
      .ok { state with auth := { state := AuthAuthenticated, user := some j } }
  | .srvConnect w => .ok { state with ws := some w }
  | .srvUserList d => .ok { state with clientList := d }
  | .srvClientOnline j caps =>
      .ok { state with clientList := clientOnline state.clientList j caps }
  | .srvClientOffline j =>
      .ok { state with clientList := clientOffline state.clientList j }
  | .mVideoEl j node =>
      .ok { state with videoElements := fun x => if x = j then some node else state.videoElements x }
  | .mConnect j =>
      .ok { state with connectedTo := fun x => if x = j then some "connecting" else state.connectedTo x }
  | .mDisconnect j => .ok (disconnectFrom state j)
  | .mPeerConn j pc =>
      .ok { state with peerConnections := fun x => if x = j then some pc else state.peerConnections x }
  | .uiEnableAudioRecording =>
      match state.ui with
      | none => .error (.typeError "cannot set recordAudio of undefined")
      | some u => .ok { state with ui := some { u with recordAudio := false } }
  | .other t => .error (.jsError ("No action " ++ t))

/-- One presence event folded through the `srv.clientOnline` /
`srv.clientOffline` branches of the store reducer. -/
def presenceStep (m : Roster) (e : PresenceEvent) : Roster :=
  match e with
  | .online j caps => clientOnline m j caps
  | .offline j => clientOffline m j

/-- A sequence of presence events folded through the store reducer's
roster branches, oldest first. -/
def applyPresenceEvents (m : Roster) (events : List PresenceEvent) : Roster :=
  events.foldl presenceStep m

/-- `API.getBareJID()`: the part of `state.auth.user` before the first
`/` — `user.split('/')[0]` — or `null` when no user is set (an
empty-string user is returned as-is, which coincides with taking the
piece before the first `/`). -/
def getBareJID (state : State) : Option Address :=
  match state.auth.user with
  | none => none
  | some user => some (String.mk (user.toList.takeWhile (fun c => c != '/')))

/-- `API.wsSend(message, toJID)` from `store.jsx` lines 310–316: calls
`this.state.ws.send(JSON.stringify({...}))` with no null check — a
`TypeError` when `state.ws` is `null`, otherwise the frame handed to
`send`. -/
def wsSend (state : State) (message : Payload) (toJID : Address) :
    Except JsError WireFrame :=
  match state.ws with
  | none => .error (.typeError "cannot read send of null")
  | some _ => .ok { from_jid := getBareJID state, to_jid := toJID, message := message }

/-- A fresh `RTCPeerConnection` as `API.createPeerConnection` constructs
it (no descriptions, no candidates); `answer` is the description the
media stack would later resolve `createAnswer()` with. -/
def freshPeerConnection (answer : Sdp) : RTCPeerConnection :=
  { localDescription := none
    remoteDescription := none
    addedIceCandidates := []
    answerSdp := answer }

/-- `API.createPeerConnection(jid)` from `store.jsx` lines 189–206:
builds a fresh connection (wiring its event handlers) and stores it
unconditionally under `jid`, replacing any existing entry. -/
def createPeerConnection (state : State) (jid : Address) (answer : Sdp) : State :=
  { state with peerConnections :=
      fun x => if x = jid then some (freshPeerConnection answer) else state.peerConnections x }

/-- `API.setAndSendLocalDescription(remoteJID, sdp)` from `store.jsx`
lines 228–232: `setLocalDescription(sdp)` on the peer connection for
`remoteJID` (a `TypeError` when there is none), then
`wsSend({ calloffer: { sdp } }, remoteJID)` — note the payload key is
`calloffer` even when `sdp` is an answer. -/
def setAndSendLocalDescription (state : State) (remoteJID : Address) (sdp : Sdp) :
    Except JsError (State × WireFrame) :=
  match state.peerConnections remoteJID with
  | none => .error (.typeError "cannot read setLocalDescription of undefined")
  | some pc =>
      let state' := { state with peerConnections :=
        fun x => if x = remoteJID then some { pc with localDescription := some sdp }
                 else state.peerConnections x }
      match wsSend state' (.calloffer sdp) remoteJID with
      | .error e => .error e
      | .ok frame => .ok (state', frame)

/-- `API.sendAnswer(remoteJID)` from `store.jsx` lines 218–226:
`createAnswer()` on the peer connection for `remoteJID` (a `TypeError`
when there is none), then `setAndSendLocalDescription` with the
resulting description (promise rejections of `createAnswer` are logged;
the successful resolution is modelled, via the connection's `answerSdp`
oracle). -/
def sendAnswer (state : State) (remoteJID : Address) :
    Except JsError (State × WireFrame) :=
  match state.peerConnections remoteJID with
  | none => .error (.typeError "cannot read createAnswer of undefined")
  | some pc => setAndSendLocalDescription state remoteJID pc.answerSdp

/-- The result of `API.handleConnectionMessage`: the state after the
handler ran plus the frames it sent. -/
structure HandlerResult where
  state : State
  sent : List WireFrame

/-- `API.handleConnectionMessage({ from_jid, message })` from `store.jsx`
lines 234–265.
`callanswer`: `setRemoteDescription` on the existing connection (a
`TypeError` when none exists).
`calloffer`: `createPeerConnection(from_jid)` (unconditionally replacing
any existing connection), `setRemoteDescription` with the offered
description, then `sendAnswer(from_jid)`.
`newicecandidate`: `addIceCandidate` on the existing connection (a
`TypeError` when none exists); there is no buffering and no check of
`remoteDescription`.
`answer` is the media stack's oracle for `createAnswer` on a freshly
created connection; other payload kinds fall through unhandled. -/
def handleConnectionMessage (state : State) (from_jid : Address) (message : Payload)
    (answer : Sdp) : Except JsError HandlerResult :=
  match message with
  | .callanswer sdp =>
      match state.peerConnections from_jid with
      | none => .error (.typeError "cannot read setRemoteDescription of undefined")
      | some pc =>
          .ok { state := { state with peerConnections :=
                  fun x => if x = from_jid then some { pc with remoteDescription := some sdp }
                           else state.peerConnections x }
                sent := [] }
  | .calloffer sdp =>
      let st1 := createPeerConnection state from_jid answer
      match st1.peerConnections from_jid with
      | none => .error (.typeError "cannot read setRemoteDescription of undefined")
      | some pc =>
          let st2 := { st1 with peerConnections :=
            fun x => if x = from_jid then some { pc with remoteDescription := some sdp }
                     else st1.peerConnections x }
          match sendAnswer st2 from_jid with
          | .error e => .error e
          | .ok (st3, frame) => .ok { state := st3, sent := [frame] }
  | .newicecandidate ice =>
      match state.peerConnections from_jid with
      | none => .error (.typeError "cannot read addIceCandidate of undefined")
      | some pc =>
          let pc' := { pc with addedIceCandidates := pc.addedIceCandidates ++ [ice] }
          .ok { state := { state with peerConnections :=
                  fun x => if x = from_jid then some pc' else state.peerConnections x }
                sent := [] }
  | _ => .ok { state := state, sent := [] }

end Store

/-- The last presence event in `events` (oldest first) that concerns
address `a`: later events take precedence.  Comparison definition
following the spec's words "the peers whose last event was `PeerOnline`". -/
def lastPresenceFor : List PresenceEvent → Address → Option PresenceEvent
  | [], _ => none
  | e :: es, a =>
      match lastPresenceFor es a with
      | some x => some x
      | none => if e.jid = a then some e else none

/-- Spec-side roster contents: an address maps to the capabilities of its
most recent `online` event when its last event was `online`, and to
nothing otherwise.  Comparison definition following the spec's words, to
be matched against the reducers' folds. -/
def rosterSpec (events : List PresenceEvent) (a : Address) : Option Capabilities :=
  match lastPresenceFor events a with
  | some (.online _ caps) => some caps
  | _ => none

/-! Concrete instances used by the witnesses and counterexamples below. -/

/-- A context state with an authenticated local user `bob@home` and no
websocket, no peer connections, empty roster. -/
def ctxState0 : Ctx.State :=
  { authState := Ctx.AuthAuthenticated
    authError := none
    authToken := some "admin@domain.tld"
    authJID := some "bob@home"
    peers := emptyRoster
    roster := some emptyRoster
    ws := none
    wsPeersByID := none
    wsStateByID := fun _ => none }

/-- A context state in which `alice@home` already has a connected peer
state. -/
def c6State : Ctx.State :=
  { ctxState0 with
      wsStateByID := fun x => if x = "alice@home" then some Ctx.PeerConnected else none }

/-- A context state holding an open websocket instance. -/
def c7State : Ctx.State :=
  { ctxState0 with ws := some { readyState := wsOPEN } }

/-- A context state holding a websocket instance that is still
`CONNECTING` — present but not open. -/
def c8State : Ctx.State :=
  { ctxState0 with ws := some { readyState := wsCONNECTING } }

/-- The context initial state with anonymous auth: its `roster` member
is absent, as in `context/index.jsx`. -/
def c10CtxState : Ctx.State := Ctx.initialState Ctx.AuthAnonymous

/-- A store state for the local user `bob@home` with an open websocket
and no peer connections. -/
def storeState0 : Store.State :=
  { Store.initialState with
      ws := some { readyState := wsOPEN }
      auth := { state := Store.AuthAuthenticated, user := some "bob@home/dev1" } }

/-- An existing peer connection toward `alice@home` whose remote
description has not been applied yet. -/
def c1Pc : RTCPeerConnection :=
  { localDescription := some { body := "offer-from-bob" }
    remoteDescription := none
    addedIceCandidates := []
    answerSdp := { body := "unused" } }

/-- A store state in which `alice@home` has the session `c1Pc` (remote
description absent) and is marked connecting. -/
def c1State : Store.State :=
  { storeState0 with
      connectedTo := fun x => if x = "alice@home" then some "connecting" else none
      peerConnections := fun x => if x = "alice@home" then some c1Pc else none }

/-- The inbound ICE candidate of the C1 instances. -/
def c1Ice : IceCand := { body := "candidate-1" }

/-- An existing peer connection toward `alice@home` representing the
local side's own pending offer (OfferSent): a local description is set,
no remote description yet. -/
def c2Pc : RTCPeerConnection :=
  { localDescription := some { body := "offer-from-bob" }
    remoteDescription := none
    addedIceCandidates := []
    answerSdp := { body := "stale" } }

/-- A store state for local user `bob@home` with its own offer pending
toward `alice@home` — the glare configuration, with the local bare JID
lexicographically greater than the remote one. -/
def c2State : Store.State :=
  { storeState0 with
      connectedTo := fun x => if x = "alice@home" then some "connecting" else none
      peerConnections := fun x => if x = "alice@home" then some c2Pc else none }

/-- A concrete presence-event sequence: two peers come online, one
refreshes its capabilities, one goes offline. -/
def c3DemoEvents : List PresenceEvent :=
  [.online "alice@home" ["produce:video"],
   .online "bob@home" ["consume:video"],
   .online "alice@home" ["produce:video", "produce:audio"],
   .offline "bob@home"]

theorem Ctx.rosterOffline_lookup (r : Roster) (j a : Address) :
    Ctx.rosterOffline r j a = if a = j then none else r a := by
  unfold Ctx.rosterOffline
  by_cases hj : (r j).isSome
  · simp [hj]
  · rw [if_neg hj]
    by_cases ha : a = j
    · subst ha
      simp [Option.not_isSome_iff_eq_none.mp hj]
    · simp [ha]

theorem ctxApplyPresenceEvents_lookup (events : List PresenceEvent) (r : Roster)
    (a : Address) :
    Ctx.applyPresenceEvents r events a =
      match lastPresenceFor events a with
      | some (.online _ caps) => some caps
      | some (.offline _) => none
      | none => r a := by
  induction events generalizing r with
  | nil => rfl
  | cons e es ih =>
      have step : Ctx.applyPresenceEvents r (e :: es) a
          = Ctx.applyPresenceEvents (Ctx.presenceStep r e) es a := rfl
      rw [step, ih]
      cases hlast : lastPresenceFor es a with
      | some x => cases x <;> simp [lastPresenceFor, hlast]
      | none =>
          cases e with
          | online j caps =>
              by_cases h : a = j
              · subst h
                simp [lastPresenceFor, hlast, Ctx.presenceStep, Ctx.rosterOnline,
                      PresenceEvent.jid]
              · simp [lastPresenceFor, hlast, Ctx.presenceStep, Ctx.rosterOnline,
                      PresenceEvent.jid, h, Ne.symm h]
          | offline j =>
              by_cases h : a = j
              · subst h
                simp [lastPresenceFor, hlast, Ctx.presenceStep, Ctx.rosterOffline_lookup,
                      PresenceEvent.jid]
              · simp [lastPresenceFor, hlast, Ctx.presenceStep, Ctx.rosterOffline_lookup,
                      PresenceEvent.jid, h, Ne.symm h]

theorem storeApplyPresenceEvents_lookup (events : List PresenceEvent) (r : Roster)
    (a : Address) :
    Store.applyPresenceEvents r events a =
      match lastPresenceFor events a with
      | some (.online _ caps) => some caps
      | some (.offline _) => none
      | none => r a := by
  induction events generalizing r with
  | nil => rfl
  | cons e es ih =>
      have step : Store.applyPresenceEvents r (e :: es) a
          = Store.applyPresenceEvents (Store.presenceStep r e) es a := rfl
      rw [step, ih]
      cases hlast : lastPresenceFor es a with
      | some x => cases x <;> simp [lastPresenceFor, hlast]
      | none =>
          cases e with
          | online j caps =>
              by_cases h : a = j
              · subst h
                simp [lastPresenceFor, hlast, Store.presenceStep, Store.clientOnline,
                      PresenceEvent.jid]
              · simp [lastPresenceFor, hlast, Store.presenceStep, Store.clientOnline,
                      PresenceEvent.jid, h, Ne.symm h]
          | offline j =>
              by_cases h : a = j
              · subst h
                simp [lastPresenceFor, hlast, Store.presenceStep, Store.clientOffline,
                      PresenceEvent.jid]
              · simp [lastPresenceFor, hlast, Store.presenceStep, Store.clientOffline,
                      PresenceEvent.jid, h, Ne.symm h]

/-- Claim C3: for every finite sequence of presence events applied to an
initially empty roster, both reducers' roster equals exactly the set of
addresses whose last event was online, each mapped to its most recently
announced capabilities; an offline event for an absent address leaves the
roster unchanged, and an offline event for a present address removes the
entry rather than marking it offline. -/
theorem c3_roster_last_event :
    (∀ (events : List PresenceEvent) (a : Address),
        Ctx.applyPresenceEvents emptyRoster events a = rosterSpec events a)
    ∧ (∀ (events : List PresenceEvent) (a : Address),
        Store.applyPresenceEvents emptyRoster events a = rosterSpec events a)
    ∧ (∀ (r : Roster) (j : Address), r j = none → Ctx.rosterOffline r j = r)
    ∧ (∀ (r : Roster) (j a : Address), r j = none → Store.clientOffline r j a = r a)
    ∧ (∀ (r : Roster) (j : Address),
        Ctx.rosterOffline r j j = none ∧ Store.clientOffline r j j = none) := by
  refine ⟨?_, ?_, ?_, ?_, ?_⟩
  · intro events a
    rw [ctxApplyPresenceEvents_lookup]
    unfold rosterSpec
    cases lastPresenceFor events a with
    | none => rfl
    | some x => cases x <;> rfl
  · intro events a
    rw [storeApplyPresenceEvents_lookup]
    unfold rosterSpec
    cases lastPresenceFor events a with
    | none => rfl
    | some x => cases x <;> rfl
  · intro r j h
    simp [Ctx.rosterOffline, h]
  · intro r j a h
    unfold Store.clientOffline
    by_cases ha : a = j
    · subst ha; simp [h]
    · simp [ha]
  · intro r j
    exact ⟨by simp [Ctx.rosterOffline_lookup], by simp [Store.clientOffline]⟩

/-- Witness for C3: the theorem applied at the concrete event sequence
`c3DemoEvents` and at the empty roster, discharging the absent-address
hypotheses at `carol@home`. -/
theorem c3_witness :
    (emptyRoster "carol@home" = none
      ∧ Ctx.rosterOffline emptyRoster "carol@home" = emptyRoster)
    ∧ (emptyRoster "carol@home" = none
      ∧ Store.clientOffline emptyRoster "carol@home" "alice@home"
          = emptyRoster "alice@home")
    ∧ Ctx.applyPresenceEvents emptyRoster c3DemoEvents "alice@home"
        = rosterSpec c3DemoEvents "alice@home"
    ∧ Store.applyPresenceEvents emptyRoster c3DemoEvents "bob@home"
        = rosterSpec c3DemoEvents "bob@home" := by
  exact ⟨⟨rfl, c3_roster_last_event.2.2.1 emptyRoster "carol@home" rfl⟩,
         ⟨rfl, c3_roster_last_event.2.2.2.1 emptyRoster "carol@home" "alice@home" rfl⟩,
         c3_roster_last_event.1 c3DemoEvents "alice@home",
         c3_roster_last_event.2.1 c3DemoEvents "bob@home"⟩

/-- Claim C9: endCall is idempotent — in both iterations, disconnecting
the same address twice in a row equals disconnecting it once (the second
call is a no-op leaving the state identical), the single call clears the
entry, and the dispatch returns normally through the reducer. -/
theorem c9_endcall_idempotent :
    (∀ (s : Ctx.State) (jid : Address),
        Ctx.disconnectFromClient (Ctx.disconnectFromClient s jid) jid
          = Ctx.disconnectFromClient s jid
        ∧ (Ctx.disconnectFromClient s jid).wsStateByID jid = none
        ∧ Ctx.createReducer s (.WRTC_PEER_STATE jid none)
            = .ok (Ctx.disconnectFromClient s jid, []))
    ∧ (∀ (s : Store.State) (client : Address),
        Store.disconnectFrom (Store.disconnectFrom s client) client
          = Store.disconnectFrom s client
        ∧ (Store.disconnectFrom s client).connectedTo client = none
        ∧ Store.createReducer s (.mDisconnect client)
            = .ok (Store.disconnectFrom s client)) := by
  constructor
  · intro s jid
    refine ⟨?_, by simp [Ctx.disconnectFromClient, Ctx.applyPeerState], rfl⟩
    unfold Ctx.disconnectFromClient Ctx.applyPeerState
    congr 1
    funext x
    by_cases h : x = jid <;> simp [h]
  · intro s client
    refine ⟨?_, by simp [Store.disconnectFrom], rfl⟩
    unfold Store.disconnectFrom
    congr 1
    funext x
    by_cases h : x = client <;> simp [h]

/-- Claim C6 (amended): `connectToClient` unconditionally dispatches
`WRTC_PEER_STATE` with `PeerState.Connecting`, overwriting whatever peer
state the address already had; the reducer applies it and returns
normally — no `AlreadyConnecting`/`AlreadyConnected` error exists. -/
theorem c6_connect_overwrites :
    ∀ (s : Ctx.State) (jid x : Address),
      (Ctx.connectToClient s jid).wsStateByID x
          = (if x = jid then some Ctx.PeerConnecting else s.wsStateByID x)
      ∧ Ctx.createReducer s (.WRTC_PEER_STATE jid (some Ctx.PeerConnecting))
          = .ok (Ctx.connectToClient s jid, []) := by
  intro s jid x
  exact ⟨rfl, rfl⟩

/-- Counterexample to C6 as stated: with an existing connected session
toward `alice@home`, a new call request is not rejected and does not
leave the state unchanged — it overwrites the entry with `Connecting`. -/
theorem c6_counterexample :
    c6State.wsStateByID "alice@home" = some Ctx.PeerConnected
    ∧ (Ctx.connectToClient c6State "alice@home").wsStateByID "alice@home"
        = some Ctx.PeerConnecting
    ∧ Ctx.PeerConnecting ≠ Ctx.PeerConnected
    ∧ Ctx.createReducer c6State (.WRTC_PEER_STATE "alice@home" (some Ctx.PeerConnecting))
        = .ok (Ctx.connectToClient c6State "alice@home", []) := by
  exact ⟨rfl, rfl, by decide, rfl⟩

/-- Claim C7 (amended): the close and error events of the relay channel
dispatch `WSCK_ON_CLOSE` / `WSCK_ON_ERROR`, which leave the state
unchanged and perform no sends — no reconnect and no backoff exist;
capabilities are announced only when an open event fires. -/
theorem c7_no_reconnect_on_close :
    ∀ (s : Ctx.State) (caps : Capabilities),
      Ctx.createReducer s .WSCK_ON_CLOSE = .ok (s, [])
      ∧ Ctx.createReducer s .WSCK_ON_ERROR = .ok (s, [])
      ∧ Ctx.createReducer s (.WSCK_ON_OPEN caps)
          = .ok (s, [Ctx.wsSend s (.capabilities caps) none]) := by
  intro s caps
  exact ⟨rfl, rfl, rfl⟩

/-- Counterexample to C7 as stated: at a concrete state, handling the
close (and error) of the relay connection produces the identical state
and no action at all — no retry is scheduled, so no backoff loop runs. -/
theorem c7_counterexample :
    Ctx.createReducer c7State .WSCK_ON_CLOSE = .ok (c7State, [])
    ∧ Ctx.createReducer c7State .WSCK_ON_ERROR = .ok (c7State, []) := by
  exact ⟨rfl, rfl⟩

/-- Claim C8 (amended): `wsSend` reports an error (and does not throw)
exactly when no websocket instance exists; whenever an instance is
present the envelope is serialized and handed to the socket's `send`,
regardless of the socket's ready state. -/
theorem c8_send_checks_only_nullness :
    ∀ (s : Ctx.State) (m : Payload) (toJID : Option Address),
      (Ctx.wsSend s m toJID = .errorReported ↔ s.ws = none)
      ∧ (∀ sock, s.ws = some sock →
          Ctx.wsSend s m toJID
            = .transmitted { from_jid := s.authJID
                             to_jid := toJID.getD ""
                             message := m }) := by
  intro s m toJID
  constructor
  · cases hws : s.ws <;> simp [Ctx.wsSend, hws]
  · intro sock h
    simp [Ctx.wsSend, h]

/-- Counterexample to C8 as stated: with a websocket instance present but
still `CONNECTING` (the channel is not open), `wsSend` does not fail — it
serializes and transmits the envelope anyway. -/
theorem c8_counterexample :
    c8State.ws = some { readyState := wsCONNECTING }
    ∧ wsCONNECTING ≠ wsOPEN
    ∧ Ctx.wsSend c8State (.capabilities ["consume:video"]) none
        = .transmitted { from_jid := some "bob@home"
                         to_jid := ""
                         message := .capabilities ["consume:video"] } := by
  exact ⟨rfl, by decide, rfl⟩

/-- Witness for C8: the amended theorem applied at `c8State` (instance
present), discharging the some-instance hypothesis. -/
theorem c8_witness :
    c8State.ws = some { readyState := wsCONNECTING }
    ∧ (Ctx.wsSend c8State .clientoffline none = .errorReported ↔ c8State.ws = none)
    ∧ Ctx.wsSend c8State .clientoffline none
        = .transmitted { from_jid := c8State.authJID
                         to_jid := (none : Option Address).getD ""
                         message := .clientoffline } := by
  exact ⟨rfl, (c8_send_checks_only_nullness c8State .clientoffline none).1,
         (c8_send_checks_only_nullness c8State .clientoffline none).2
           { readyState := wsCONNECTING } rfl⟩

/-- Claim C1 (amended): an inbound ICE candidate for an address with an
existing peer connection is handed to `addIceCandidate` immediately,
whether or not the remote description has been applied; nothing is sent,
nothing else changes, and no pending-candidate buffer exists anywhere in
the state. -/
theorem c1_icecandidate_applied_immediately :
    ∀ (s : Store.State) (pc : RTCPeerConnection) (jid : Address) (ice : IceCand)
      (answer : Sdp),
      s.peerConnections jid = some pc →
      Store.handleConnectionMessage s jid (.newicecandidate ice) answer
        = .ok { state := { s with peerConnections := fun x =>
                    if x = jid then some { pc with addedIceCandidates := pc.addedIceCandidates ++ [ice] } else s.peerConnections x }
                sent := [] } := by
  intro s pc jid ice answer h
  unfold Store.handleConnectionMessage
  rw [h]

/-- Counterexample to C1 as stated: toward `alice@home` the remote
description is absent, yet the inbound candidate is applied to the
transport capability immediately (it ends up in the `addIceCandidate`
call log) instead of being buffered — the state has no
`pendingRemoteCandidates` to append to. -/
theorem c1_counterexample :
    ((c1State.peerConnections "alice@home").map RTCPeerConnection.remoteDescription
        = some none)
    ∧ ((Store.handleConnectionMessage c1State "alice@home" (.newicecandidate c1Ice)
          { body := "unused" }).map
        (fun r => ((r.state.peerConnections "alice@home").map
            RTCPeerConnection.addedIceCandidates, r.sent)))
        = .ok (some [c1Ice], []) := by
  exact ⟨rfl, rfl⟩

/-- Witness for C1: the amended theorem applied at `c1State`, discharging
the existing-connection hypothesis. -/
theorem c1_witness :
    c1State.peerConnections "alice@home" = some c1Pc
    ∧ Store.handleConnectionMessage c1State "alice@home" (.newicecandidate c1Ice)
        { body := "unused" }
      = .ok { state := { c1State with peerConnections := fun x =>
                  if x = "alice@home" then some { c1Pc with addedIceCandidates := c1Pc.addedIceCandidates ++ [c1Ice] } else c1State.peerConnections x }
              sent := [] } := by
  exact ⟨rfl, c1_icecandidate_applied_immediately c1State c1Pc "alice@home" c1Ice
               { body := "unused" } rfl⟩

/-- Claim C4 (code bug): an `IceCandidate` or `CallAnswer` arriving from
an address with no peer-connection entry makes the handler dereference
`undefined` — a thrown `TypeError`, not a logged drop. -/
theorem c4_unknown_session_throws :
    Store.initialState.peerConnections "alice@home" = none
    ∧ Store.handleConnectionMessage Store.initialState "alice@home"
        (.newicecandidate { body := "cand-1" }) { body := "unused" }
      = .error (.typeError "cannot read addIceCandidate of undefined")
    ∧ Store.handleConnectionMessage Store.initialState "alice@home"
        (.callanswer { body := "answer-sdp" }) { body := "unused" }
      = .error (.typeError "cannot read setRemoteDescription of undefined") := by
  exact ⟨rfl, rfl, rfl⟩

/-- Claim C5 (code bug): an inbound `calloffer` for an address with no
session creates the connection, applies the offered remote description
and produces a local answer — but the frame sent back carries the
payload key `calloffer` (wrapping the answer description), not
`callanswer`. -/
theorem c5_answer_sent_as_calloffer :
    storeState0.peerConnections "alice@home" = none
    ∧ (Store.handleConnectionMessage storeState0 "alice@home"
          (.calloffer { body := "offer-from-alice" }) { body := "answer-from-bob" }).map
        (fun r => (r.sent, r.state.peerConnections "alice@home"))
      = .ok ([{ from_jid := some "bob@home"
                to_jid := "alice@home"
                message := .calloffer { body := "answer-from-bob" } }],
             some { localDescription := some { body := "answer-from-bob" }
                    remoteDescription := some { body := "offer-from-alice" }
                    addedIceCandidates := []
                    answerSdp := { body := "answer-from-bob" } }) := by
  exact ⟨rfl, rfl⟩

/-- Claim C2 (amended): there is no glare tie-break — whenever a
websocket instance is present, an inbound `calloffer` is accepted
unconditionally, for any pair of local and remote addresses and any
existing session state: the handler replaces whatever peer connection
`from_jid` had with a fresh one carrying the offered remote description
and the locally created answer as local description, and sends one
`calloffer`-keyed frame wrapping that answer back to `from_jid`,
without comparing the two addresses anywhere. -/
theorem c2_calloffer_always_accepted (s : Store.State) (sock : WebSocketInstance)
    (from_jid : Address) (offer answer : Sdp) (hws : s.ws = some sock) :
    Store.handleConnectionMessage s from_jid (.calloffer offer) answer
      = .ok { state := { s with peerConnections := fun x =>
                  if x = from_jid then some { localDescription := some answer, remoteDescription := some offer, addedIceCandidates := [], answerSdp := answer } else s.peerConnections x }
              sent := [{ from_jid := Store.getBareJID s
                         to_jid := from_jid
                         message := .calloffer answer }] } := by
  simp [Store.handleConnectionMessage, Store.createPeerConnection, Store.freshPeerConnection,
        Store.sendAnswer, Store.setAndSendLocalDescription, Store.wsSend, Store.getBareJID, hws]
  funext x
  by_cases h : x = from_jid <;> simp [h]

/-- Counterexample to C2 as stated: the local bare JID `bob@home` is
lexicographically greater than the remote `alice@home`, and the local
side has its own offer pending toward `alice@home` (glare while
OfferSent) — per the claim the local side must ignore the incoming
offer; instead the handler discards the existing connection, accepts the
offer and sends a reply. -/
theorem c2_counterexample :
    ("alice@home".toList.headD ' ' = 'a'
      ∧ "bob@home".toList.headD ' ' = 'b'
      ∧ 'a' < 'b')
    ∧ Store.getBareJID c2State = some "bob@home"
    ∧ c2State.peerConnections "alice@home" = some c2Pc
    ∧ c2Pc.localDescription = some { body := "offer-from-bob" }
    ∧ (Store.handleConnectionMessage c2State "alice@home"
          (.calloffer { body := "offer-from-alice" }) { body := "answer-from-bob" }).map
        (fun r => (r.sent, (r.state.peerConnections "alice@home").map
            RTCPeerConnection.localDescription))
      = .ok ([{ from_jid := some "bob@home"
                to_jid := "alice@home"
                message := .calloffer { body := "answer-from-bob" } }],
             some (some { body := "answer-from-bob" })) := by
  exact ⟨⟨rfl, rfl, by decide⟩, rfl, rfl, rfl, rfl⟩

/-- Witness for C2: the amended theorem applied at `c2State`, discharging
the websocket-present hypothesis. -/
theorem c2_witness :
    c2State.ws = some { readyState := wsOPEN }
    ∧ Store.handleConnectionMessage c2State "alice@home"
        (.calloffer { body := "offer-from-alice" }) { body := "answer-from-bob" }
      = .ok { state := { c2State with peerConnections := fun x =>
                  if x = "alice@home" then some { localDescription := some { body := "answer-from-bob" }, remoteDescription := some { body := "offer-from-alice" }, addedIceCandidates := [], answerSdp := { body := "answer-from-bob" } } else c2State.peerConnections x }
              sent := [{ from_jid := Store.getBareJID c2State
                         to_jid := "alice@home"
                         message := .calloffer { body := "answer-from-bob" } }] } := by
  exact ⟨rfl, c2_calloffer_always_accepted c2State { readyState := wsOPEN } "alice@home"
               { body := "offer-from-alice" } { body := "answer-from-bob" } rfl⟩

/-- Claim C10 (amended): both reducers throw on every action whose type
string is not one of their defined constants; known-type actions return
a state without throwing, except that (a) the store reducer's
`ui.enableAudioRecording` throws whenever the state carries no `ui`
object (true of its `initialState`, which no branch changes in that
respect), and (b) the context reducer's `ROSTER_ONLINE` and
`ROSTER_OFFLINE` throw a `TypeError` on any state without a `roster`
member — such as the context initial state, whose roster-like member is
named `peers` — and return a state once `ROSTER_LIST` has installed a
roster object. -/
theorem c10_reducer_totality :
    (∀ (s : Ctx.State) (t : String), t ∉ Ctx.knownActionTypes →
        Ctx.createReducer s (.other t)
          = .error (.jsError ("action type not known: " ++ t)))
    ∧ (∀ (s : Ctx.State) (a : Ctx.Action),
        a.isOther = false → a.touchesRoster = false →
        ∃ out, Ctx.createReducer s a = .ok out)
    ∧ (∀ (s : Ctx.State) (j : Address) (caps : Capabilities), s.roster = none →
        Ctx.createReducer s (.ROSTER_ONLINE j caps)
            = .error (.typeError "cannot set properties of undefined")
        ∧ Ctx.createReducer s (.ROSTER_OFFLINE j)
            = .error (.typeError "cannot read properties of undefined"))
    ∧ (∀ (s : Ctx.State) (r : Roster) (j : Address) (caps : Capabilities),
        s.roster = some r →
        Ctx.createReducer s (.ROSTER_ONLINE j caps)
            = .ok ({ s with roster := some (Ctx.rosterOnline r j caps) }, [])
        ∧ Ctx.createReducer s (.ROSTER_OFFLINE j)
            = .ok ({ s with roster := some (Ctx.rosterOffline r j) }, []))
    ∧ (∀ (s : Store.State) (t : String), t ∉ Store.knownActionTypes →
        Store.createReducer s (.other t) = .error (.jsError ("No action " ++ t)))
    ∧ (∀ (s : Store.State) (a : Store.Action),
        a.isOther = false → a ≠ .uiEnableAudioRecording →
        ∃ out, Store.createReducer s a = .ok out)
    ∧ (∀ (s : Store.State), s.ui = none →
        Store.createReducer s .uiEnableAudioRecording
          = .error (.typeError "cannot set recordAudio of undefined")) := by
  refine ⟨?_, ?_, ?_, ?_, ?_, ?_, ?_⟩
  · intro s t _
    rfl
  · intro s a h hr
    cases a
    case ROSTER_ONLINE j caps => simp [Ctx.Action.touchesRoster] at hr
    case ROSTER_OFFLINE j => simp [Ctx.Action.touchesRoster] at hr
    case other t => simp [Ctx.Action.isOther] at h
    all_goals exact ⟨_, rfl⟩
  · intro s j caps h
    constructor
    · unfold Ctx.createReducer
      rw [h]
    · unfold Ctx.createReducer
      rw [h]
  · intro s r j caps h
    constructor
    · unfold Ctx.createReducer
      rw [h]
    · unfold Ctx.createReducer
      rw [h]
  · intro s t _
    rfl
  · intro s a h h2
    cases a <;> first
      | exact ⟨_, rfl⟩
      | exact absurd rfl h2
      | simp [Store.Action.isOther] at h
  · intro s h
    simp [Store.createReducer, h]

/-- Counterexample to C10 as stated: `ui.enableAudioRecording` and
`ROSTER_ONLINE` are known action types, yet the store reducer throws on
the former at its initial state, and the context reducer throws on the
latter at the context initial state, which has no `roster` member. -/
theorem c10_counterexample :
    ("ui.enableAudioRecording" ∈ Store.knownActionTypes
      ∧ Store.Action.typeName .uiEnableAudioRecording = "ui.enableAudioRecording"
      ∧ Store.createReducer Store.initialState .uiEnableAudioRecording
          = .error (.typeError "cannot set recordAudio of undefined"))
    ∧ ("ROSTER_ONLINE" ∈ Ctx.knownActionTypes
      ∧ Ctx.Action.typeName (.ROSTER_ONLINE "alice@home" ["produce:video"])
          = "ROSTER_ONLINE"
      ∧ (Ctx.initialState Ctx.AuthAnonymous).roster = none
      ∧ Ctx.createReducer (Ctx.initialState Ctx.AuthAnonymous)
          (.ROSTER_ONLINE "alice@home" ["produce:video"])
          = .error (.typeError "cannot set properties of undefined")) := by
  refine ⟨⟨?_, rfl, rfl⟩, ⟨?_, rfl, rfl, rfl⟩⟩
  · simp [Store.knownActionTypes]
  · simp [Ctx.knownActionTypes]

/-- Witness for C10: the amended theorem applied at concrete states and
actions, discharging the unknown-type, non-other, non-roster,
roster-absent, roster-present, non-ui and no-ui-object hypotheses. -/
theorem c10_witness :
    ("bogus.action" ∉ Ctx.knownActionTypes
      ∧ Ctx.createReducer c10CtxState (.other "bogus.action")
          = .error (.jsError ("action type not known: " ++ "bogus.action")))
    ∧ (Ctx.Action.isOther .AUTH_LOADING = false
      ∧ Ctx.Action.touchesRoster .AUTH_LOADING = false
      ∧ ∃ out, Ctx.createReducer c10CtxState .AUTH_LOADING = .ok out)
    ∧ (c10CtxState.roster = none
      ∧ Ctx.createReducer c10CtxState (.ROSTER_ONLINE "alice@home" ["produce:video"])
          = .error (.typeError "cannot set properties of undefined")
      ∧ Ctx.createReducer c10CtxState (.ROSTER_OFFLINE "alice@home")
          = .error (.typeError "cannot read properties of undefined"))
    ∧ (ctxState0.roster = some emptyRoster
      ∧ Ctx.createReducer ctxState0 (.ROSTER_ONLINE "alice@home" ["produce:video"])
          = .ok ({ ctxState0 with
                     roster := some (Ctx.rosterOnline emptyRoster "alice@home"
                                       ["produce:video"]) }, [])
      ∧ Ctx.createReducer ctxState0 (.ROSTER_OFFLINE "alice@home")
          = .ok ({ ctxState0 with
                     roster := some (Ctx.rosterOffline emptyRoster "alice@home") }, []))
    ∧ ("bogus.action" ∉ Store.knownActionTypes
      ∧ Store.createReducer Store.initialState (.other "bogus.action")
          = .error (.jsError ("No action " ++ "bogus.action")))
    ∧ (∃ out, Store.createReducer Store.initialState (.mDisconnect "alice@home")
          = .ok out)
    ∧ (Store.initialState.ui = none
      ∧ Store.createReducer Store.initialState .uiEnableAudioRecording
          = .error (.typeError "cannot set recordAudio of undefined")) := by
  have h3 := c10_reducer_totality.2.2.1 c10CtxState "alice@home" ["produce:video"] rfl
  have h4 := c10_reducer_totality.2.2.2.1 ctxState0 emptyRoster "alice@home"
               ["produce:video"] rfl
  refine ⟨⟨?h1, c10_reducer_totality.1 c10CtxState "bogus.action" ?h1⟩,
          ⟨rfl, rfl, c10_reducer_totality.2.1 c10CtxState .AUTH_LOADING rfl rfl⟩,
          ⟨rfl, h3.1, h3.2⟩,
          ⟨rfl, h4.1, h4.2⟩,
          ⟨?h2, c10_reducer_totality.2.2.2.2.1 Store.initialState "bogus.action" ?h2⟩,
          c10_reducer_totality.2.2.2.2.2.1 Store.initialState (.mDisconnect "alice@home")
            rfl (fun h => Store.Action.noConfusion h),
          ⟨rfl, c10_reducer_totality.2.2.2.2.2.2 Store.initialState rfl⟩⟩
  case h1 => simp [Ctx.knownActionTypes]
  case h2 => simp [Store.knownActionTypes]
